import Mathlib

/-!
Verification development for the agent-bridge subsystem of the fallout2 SDK
(src/agent_bridge.cc, src/agent_commands.cc, src/agent_state.cc and their
headers).  Each C++ function relevant to the checked claims is shallowly
embedded as a pure Lean function; engine collaborators (pathfinding,
animation registration, object resolution, ...) appear as explicit
parameters or environment fields, mirroring the call sites.
-/

set_option maxRecDepth 4000

/-- `AgentCommandStatus` — the command result taxonomy used by every handler
(declared in a bridge header; the constructor set is fixed by the spec and
by the `return AgentCommandStatus::...` sites in agent_commands.cc). -/
inductive AgentCommandStatus where
  | Ok
  | BadArgs
  | Blocked
  | Failed
  | NoOp
  | UnknownCommand
deriving DecidableEq, Repr

/-! ## Transport: processCommands file discipline (agent_commands.cc:3525-3549,
agent_bridge.cc:716-740 — both versions share the identical read / delete /
parse prologue). -/

/-- The command channel: the canonical command file either exists with some
contents or is absent (`fopen` returning null is the absent case). -/
structure CommandChannel where
  cmdFile : Option String
deriving DecidableEq, Repr

/-- `processCommands` prologue, agent_commands.cc:3525-3549.  `parse` stands
for `json::parse` plus the extraction of the `commands` array: it returns
`none` when parsing throws or the array is missing, in which case the whole
batch is discarded (the function returns after logging).  The file is removed
(`remove(kCmdPath)`, line 3541) immediately after its bytes are read and
before `parse` is consulted, so the returned channel has no command file in
every branch where one existed.  The second component is the list of commands
handed to the dispatch loop this tick. -/
def processCommandsFile (parse : String → Option (List α)) (ch : CommandChannel) :
    CommandChannel × List α :=
  match ch.cmdFile with
  | none => (ch, [])
  | some content =>
    let afterDelete : CommandChannel := { cmdFile := none }
    match parse content with
    | none => (afterDelete, [])
    | some cmds => (afterDelete, cmds)

/-! ## Telemetry: consecutive-failure counters
(agent_commands.cc:3512-3521, agent_bridge_internal.h:56-57). -/

/-- Modelled from the spec: `agentCommandStatusIsFailure` is declared in a
bridge header that is not under src/.  The spec fixes `Failed` as
failure-classified (scenario E: three `Failed` results leave the counter at
3) and `Ok` as non-failure (the same scenario resets on `Ok`); scenario D
says unknown command types do not accumulate counters.  The classification
of the remaining statuses is not needed by the claims settled here and is
modelled as non-failure. -/
def agentCommandStatusIsFailure : AgentCommandStatus → Bool
  | .Failed => true
  | _ => false

/-- `gCommandFailureCounts` (agent_commands.cc:58): a `std::map` from command
type to consecutive-failure count; an absent key is `none`. -/
def FailureCounts : Type := String → Option Nat

/-- Counter maintenance of `trackAndLogCommandResult`
(agent_commands.cc:3512-3518): `gCommandFailureCounts[type]++` on a
failure-classified status (`operator[]` default-constructs 0 for an absent
key), `gCommandFailureCounts.erase(type)` otherwise.  The trailing
`agentDebugLogCommand` call does not touch the counters. -/
def trackAndLogCommandResult (type : String) (status : AgentCommandStatus)
    (m : FailureCounts) : FailureCounts :=
  if agentCommandStatusIsFailure status then
    fun t => if t = type then some ((m type).getD 0 + 1) else m t
  else
    fun t => if t = type then none else m t

/-- The value an observer reads for a type: the stored count, 0 if absent. -/
def failureCountOf (m : FailureCounts) (type : String) : Nat :=
  (m type).getD 0

/-! ## Dispatch ordering with priority phases (agent_bridge.cc:747-786). -/

/-- A command as the dispatch loop sees it: its `type` field when present and
a string (entries without one are skipped by the `continue` at
agent_bridge.cc:757-758), plus an opaque payload identity so that distinct
batch entries are distinguishable. -/
structure Command where
  type : Option String
  payload : Nat
deriving DecidableEq, Repr

/-- The six buckets built by the classification loop of `processCommands`
(agent_bridge.cc:749-774). -/
structure PhaseBuckets where
  setSpecial : List Command
  selectTraits : List Command
  tagSkills : List Command
  setName : List Command
  finish : List Command
  others : List Command
deriving DecidableEq, Repr

/-- One iteration of the classification loop (agent_bridge.cc:756-774):
push the command into the bucket matching its type, skipping entries with
no string `type`. -/
def bucketStep (b : PhaseBuckets) (c : Command) : PhaseBuckets :=
  match c.type with
  | none => b
  | some t =>
    if t = "set_special" then { b with setSpecial := b.setSpecial ++ [c] }
    else if t = "select_traits" then { b with selectTraits := b.selectTraits ++ [c] }
    else if t = "tag_skills" then { b with tagSkills := b.tagSkills ++ [c] }
    else if t = "set_name" then { b with setName := b.setName ++ [c] }
    else if t = "finish_character_creation" then { b with finish := b.finish ++ [c] }
    else { b with others := b.others ++ [c] }

/-- The order in which `processCommands` (agent_bridge.cc:747-856) hands
commands to their handlers: the five priority phases in their fixed order
(agent_bridge.cc:776-786), then every other command (agent_bridge.cc:788-856),
each bucket in batch order. -/
def dispatchOrder (batch : List Command) : List Command :=
  let b := batch.foldl bucketStep ⟨[], [], [], [], [], []⟩
  b.setSpecial ++ b.selectTraits ++ b.tagSkills ++ b.setName ++ b.finish ++ b.others

/-- Whether a command carries the given type string. -/
def hasType (c : Command) (t : String) : Bool :=
  c.type = some t

/-- Whether a command is dispatchable (has a string type) but belongs to none
of the five priority phases. -/
def isNonPhase (c : Command) : Bool :=
  match c.type with
  | none => false
  | some t =>
    !(t = "set_special" || t = "select_traits" || t = "tag_skills"
      || t = "set_name" || t = "finish_character_creation")

theorem bucketFold_characterization (batch : List Command) (b : PhaseBuckets) :
    (batch.foldl bucketStep b).setSpecial
        = b.setSpecial ++ batch.filter (hasType · "set_special")
    ∧ (batch.foldl bucketStep b).selectTraits
        = b.selectTraits ++ batch.filter (hasType · "select_traits")
    ∧ (batch.foldl bucketStep b).tagSkills
        = b.tagSkills ++ batch.filter (hasType · "tag_skills")
    ∧ (batch.foldl bucketStep b).setName
        = b.setName ++ batch.filter (hasType · "set_name")
    ∧ (batch.foldl bucketStep b).finish
        = b.finish ++ batch.filter (hasType · "finish_character_creation")
    ∧ (batch.foldl bucketStep b).others
        = b.others ++ batch.filter isNonPhase := by
  induction batch generalizing b with
  | nil => simp
  | cons c rest ih =>
    obtain ⟨ih1, ih2, ih3, ih4, ih5, ih6⟩ := ih (bucketStep b c)
    refine ⟨?_, ?_, ?_, ?_, ?_, ?_⟩ <;>
      · simp only [List.foldl_cons, List.filter_cons, ih1, ih2, ih3, ih4, ih5, ih6]
        rcases hc : c.type with _ | t
        · simp [bucketStep, hasType, isNonPhase, hc]
        · by_cases h1 : t = "set_special"
          · simp [bucketStep, hasType, isNonPhase, hc, h1]
          · by_cases h2 : t = "select_traits"
            · simp [bucketStep, hasType, isNonPhase, hc, h1, h2]
            · by_cases h3 : t = "tag_skills"
              · simp [bucketStep, hasType, isNonPhase, hc, h1, h2, h3]
              · by_cases h4 : t = "set_name"
                · simp [bucketStep, hasType, isNonPhase, hc, h1, h2, h3, h4]
                · by_cases h5 : t = "finish_character_creation"
                  · simp [bucketStep, hasType, isNonPhase, hc, h1, h2, h3, h4, h5]
                  · simp [bucketStep, hasType, isNonPhase, hc, h1, h2, h3, h4, h5]

/-- **C1.** On every tick on which the command file exists, `processCommands`
reads its full contents and deletes the file before attempting to parse them
(so the resulting channel holds no file whatever `parse` does); if parsing
fails the whole batch is discarded — no command of it is dispatched — and if
it succeeds the dispatched batch is exactly the parsed contents. -/
theorem processCommands_deletes_before_parse
    (parse : String → Option (List α)) (ch : CommandChannel) (s : String)
    (hfile : ch.cmdFile = some s) :
    (processCommandsFile parse ch).1.cmdFile = none
    ∧ (parse s = none → (processCommandsFile parse ch).2 = [])
    ∧ (∀ cmds, parse s = some cmds → (processCommandsFile parse ch).2 = cmds) := by
  refine ⟨?_, ?_, ?_⟩ <;>
    · simp only [processCommandsFile, hfile]
      rcases h : parse s with _ | cmds <;> simp [h]

theorem processCommands_deletes_before_parse_witness :
    (processCommandsFile (fun _ => (none : Option (List Nat))) ⟨some "garbage"⟩).1.cmdFile
        = none
    ∧ (processCommandsFile (fun _ => (none : Option (List Nat))) ⟨some "garbage"⟩).2 = [] := by
  have h := processCommands_deletes_before_parse
    (fun _ => (none : Option (List Nat))) ⟨some "garbage"⟩ "garbage" rfl
  exact ⟨h.1, h.2.1 rfl⟩

/-- **C7.** Failure counters: for every command type, the counter is
incremented by one on each failure-classified result, reset (erased) on any
non-failure result of that type, and other types are untouched; starting
from an absent counter, three consecutive `Failed` results leave it at 3 and
a fourth command of that type yielding `Ok` resets it to 0. -/
theorem failureCounter_tracking (m : FailureCounts) (type : String) :
    (∀ s, agentCommandStatusIsFailure s = true →
      trackAndLogCommandResult type s m type = some (failureCountOf m type + 1))
    ∧ (∀ s, agentCommandStatusIsFailure s = false →
      trackAndLogCommandResult type s m type = none)
    ∧ (∀ s t, t ≠ type → trackAndLogCommandResult type s m t = m t)
    ∧ (m type = none →
      (failureCountOf
        (trackAndLogCommandResult type .Failed
          (trackAndLogCommandResult type .Failed
            (trackAndLogCommandResult type .Failed m))) type = 3
      ∧ trackAndLogCommandResult type .Ok
          (trackAndLogCommandResult type .Failed
            (trackAndLogCommandResult type .Failed
              (trackAndLogCommandResult type .Failed m))) type = none)) := by
  refine ⟨?_, ?_, ?_, ?_⟩
  · intro s hs
    simp [trackAndLogCommandResult, hs, failureCountOf]
  · intro s hs
    simp [trackAndLogCommandResult, hs]
  · intro s t ht
    by_cases hf : agentCommandStatusIsFailure s <;>
      simp [trackAndLogCommandResult, hf, ht]
  · intro h0
    constructor
    · simp [trackAndLogCommandResult, agentCommandStatusIsFailure, failureCountOf, h0]
    · simp [trackAndLogCommandResult, agentCommandStatusIsFailure]

theorem failureCounter_tracking_witness :
    failureCountOf
      (trackAndLogCommandResult "attack" .Failed
        (trackAndLogCommandResult "attack" .Failed
          (trackAndLogCommandResult "attack" .Failed (fun _ => none)))) "attack" = 3
    ∧ trackAndLogCommandResult "attack" .Ok
        (trackAndLogCommandResult "attack" .Failed
          (trackAndLogCommandResult "attack" .Failed
            (trackAndLogCommandResult "attack" .Failed (fun _ => none)))) "attack" = none := by
  exact (failureCounter_tracking (fun _ => none) "attack").2.2.2 rfl

/-- **C5.** For all well-formed command batches, dispatch order equals batch
order except for the fixed priority-phase command types (`set_special`,
`select_traits`, `tag_skills`, `set_name`, `finish_character_creation`),
which are always applied in that fixed phase order before all other
commands, regardless of their position in the batch: the dispatch order is
exactly the batch's `set_special` commands (in batch order), then its
`select_traits` commands, then `tag_skills`, then `set_name`, then
`finish_character_creation`, then all remaining typed commands in batch
order; in particular a batch with no priority-phase command is dispatched
exactly in batch order. -/
theorem dispatchOrder_phases (batch : List Command) :
    dispatchOrder batch
      = batch.filter (hasType · "set_special")
        ++ batch.filter (hasType · "select_traits")
        ++ batch.filter (hasType · "tag_skills")
        ++ batch.filter (hasType · "set_name")
        ++ batch.filter (hasType · "finish_character_creation")
        ++ batch.filter isNonPhase
    ∧ ((∀ c ∈ batch, isNonPhase c = true) → dispatchOrder batch = batch) := by
  obtain ⟨h1, h2, h3, h4, h5, h6⟩ :=
    bucketFold_characterization batch ⟨[], [], [], [], [], []⟩
  constructor
  · simp only [dispatchOrder, h1, h2, h3, h4, h5, h6, List.nil_append, List.append_assoc]
  · intro hall
    have hphase : ∀ t, (t = "set_special" ∨ t = "select_traits" ∨ t = "tag_skills"
        ∨ t = "set_name" ∨ t = "finish_character_creation") →
        batch.filter (hasType · t) = [] := by
      intro t ht
      rw [List.filter_eq_nil_iff]
      intro c hc
      have := hall c hc
      simp only [isNonPhase] at this
      rcases hct : c.type with _ | u
      · simp [hasType, hct]
      · rw [hct] at this
        simp only [Bool.not_eq_true'] at this
        simp only [hasType, hct, decide_eq_true_eq, Option.some.injEq]
        intro hut
        rcases ht with h | h | h | h | h <;> simp [hut, h] at this
    have hother : batch.filter isNonPhase = batch :=
      List.filter_eq_self.mpr hall
    simp only [dispatchOrder, h1, h2, h3, h4, h5, h6, List.nil_append]
    rw [hphase "set_special" (by simp), hphase "select_traits" (by simp),
      hphase "tag_skills" (by simp), hphase "set_name" (by simp),
      hphase "finish_character_creation" (by simp), hother]
    simp

/-! ## Pending attack queue (agent_commands.cc:397-451). -/

/-- Hit modes, as named by the engine constants used in
`hitModeFromString` (agent_commands.cc:1526-1537) and `handleAttack`. -/
inductive HitMode where
  | leftWeaponPrimary
  | leftWeaponSecondary
  | rightWeaponPrimary
  | rightWeaponSecondary
  | punch
  | kick
deriving DecidableEq, Repr

/-- Hit locations, as named by the engine constants used in
`hitLocationFromString` (agent_commands.cc:1539-1558). -/
inductive HitLocation where
  | head
  | torso
  | eyes
  | groin
  | leftArm
  | rightArm
  | leftLeg
  | rightLeg
  | uncalled
deriving DecidableEq, Repr

/-- `PendingAttack` (agent_commands.cc:400-404): one deferred attack entry of
the queue `gPendingAttacks`. -/
structure PendingAttack where
  targetId : Nat
  hitMode : HitMode
  hitLocation : HitLocation
deriving DecidableEq, Repr

/-- What the bridge observes about a resolved object: whether
`critterIsDead` holds for it. -/
structure Critter where
  dead : Bool
deriving DecidableEq, Repr

/-- The engine state `processPendingAttacks` consults on one tick:
`isInCombat()`, `animationIsBusy(gDude)`, the player's action points
`gDude->data.critter.combat.ap`, and the resolver
`findObjectByUniqueId` over the live entity set. -/
structure CombatEnv where
  inCombat : Bool
  animBusy : Bool
  ap : Int
  resolve : Nat → Option Critter

/-- `processPendingAttacks` (agent_commands.cc:407-446).  Returns the queue
after the tick together with the entry handed to `_combat_attack` this tick,
if any.  Mirrors the source: empty queue — nothing to do; combat over —
clear; animation busy — keep untouched; no AP — clear; then the front entry
is popped, its target re-resolved, and a vanished or dead target clears the
rest of the queue, otherwise the popped entry is executed. -/
def processPendingAttacks (env : CombatEnv) (q : List PendingAttack) :
    List PendingAttack × Option PendingAttack :=
  match q with
  | [] => ([], none)
  | atk :: rest =>
    if !env.inCombat then ([], none)
    else if env.animBusy then (atk :: rest, none)
    else if env.ap ≤ 0 then ([], none)
    else
      match env.resolve atk.targetId with
      | none => ([], none)
      | some target =>
        if target.dead then ([], none)
        else (rest, some atk)

/-- The queue after a whole sequence of service ticks with no intervening
attack command. -/
def runPendingTicks (envs : List CombatEnv) (q : List PendingAttack) :
    List PendingAttack :=
  envs.foldl (fun acc e => (processPendingAttacks e acc).1) q

/-- **C2.** The pending attack queue services at most one queued attack per
tick, in strict FIFO order (the executed entry is the queue front and the
survivors are exactly the tail), and only while combat is active, the actor
is not mid-animation and its action points are positive; if combat has
ended, action points are exhausted, or the front target no longer resolves
or is dead, the entire remaining queue is cleared at once — the result is
always all of the queue, its tail, or nothing, never another subset — and an
empty queue stays empty across any sequence of service ticks until a new
attack command enqueues entries. -/
theorem pendingAttacks_fifo_invariant (env : CombatEnv) (q : List PendingAttack) :
    (∀ a, (processPendingAttacks env q).2 = some a →
      ∃ rest, q = a :: rest ∧ (processPendingAttacks env q).1 = rest)
    ∧ ((processPendingAttacks env q).2 ≠ none →
      env.inCombat = true ∧ env.animBusy = false ∧ 0 < env.ap)
    ∧ (q ≠ [] → env.inCombat = false → (processPendingAttacks env q).1 = [])
    ∧ (q ≠ [] → env.inCombat = true → env.animBusy = false → env.ap ≤ 0 →
      (processPendingAttacks env q).1 = [])
    ∧ (∀ a rest, q = a :: rest → env.inCombat = true → env.animBusy = false →
      0 < env.ap →
      (env.resolve a.targetId = none ∨ ∃ c, env.resolve a.targetId = some c ∧ c.dead = true) →
      (processPendingAttacks env q).1 = [])
    ∧ ((processPendingAttacks env q).1 = []
        ∨ (processPendingAttacks env q).1 = q
        ∨ ∃ a rest, q = a :: rest ∧ (processPendingAttacks env q).1 = rest)
    ∧ (∀ envs, runPendingTicks envs [] = []) := by
  have hempty : ∀ e : CombatEnv, processPendingAttacks e [] = ([], none) := by
    intro e; rfl
  refine ⟨?_, ?_, ?_, ?_, ?_, ?_, ?_⟩
  · intro a ha
    match q with
    | [] => simp [processPendingAttacks] at ha
    | atk :: rest =>
      refine ⟨rest, ?_⟩
      by_cases hc : env.inCombat
      · by_cases hb : env.animBusy
        · simp [processPendingAttacks, hc, hb] at ha
        · by_cases hap : env.ap ≤ 0
          · simp [processPendingAttacks, hc, hb, hap] at ha
          · rcases hr : env.resolve atk.targetId with _ | c
            · simp [processPendingAttacks, hc, hb, hap, hr] at ha
            · by_cases hd : c.dead
              · simp [processPendingAttacks, hc, hb, hap, hr, hd] at ha
              · simp only [processPendingAttacks, hc, hb, hap, hr, hd] at ha ⊢
                simp only [Bool.not_true, Bool.false_eq_true, if_false, if_neg hap,
                  if_neg hd] at ha ⊢
                simp_all
      · simp [processPendingAttacks, hc] at ha
  · intro hne
    match q with
    | [] => simp [processPendingAttacks] at hne
    | atk :: rest =>
      by_cases hc : env.inCombat
      · by_cases hb : env.animBusy
        · simp [processPendingAttacks, hc, hb] at hne
        · by_cases hap : env.ap ≤ 0
          · simp [processPendingAttacks, hc, hb, hap] at hne
          · exact ⟨hc, by simpa using hb, lt_of_not_le hap⟩
      · simp [processPendingAttacks, hc] at hne
  · intro hq hc
    match q with
    | [] => exact absurd rfl hq
    | atk :: rest => simp [processPendingAttacks, hc]
  · intro hq hc hb hap
    match q with
    | [] => exact absurd rfl hq
    | atk :: rest => simp [processPendingAttacks, hc, hb, hap]
  · intro a rest hq hc hb hap hbad
    subst hq
    rcases hbad with hr | ⟨c, hr, hd⟩
    · simp [processPendingAttacks, hc, hb, not_le.mpr hap, hr]
    · simp [processPendingAttacks, hc, hb, not_le.mpr hap, hr, hd]
  · match q with
    | [] => exact Or.inl rfl
    | atk :: rest =>
      by_cases hc : env.inCombat
      · by_cases hb : env.animBusy
        · exact Or.inr (Or.inl (by simp [processPendingAttacks, hc, hb]))
        · by_cases hap : env.ap ≤ 0
          · exact Or.inl (by simp [processPendingAttacks, hc, hb, hap])
          · rcases hr : env.resolve atk.targetId with _ | c
            · exact Or.inl (by simp [processPendingAttacks, hc, hb, hap, hr])
            · by_cases hd : c.dead
              · exact Or.inl (by simp [processPendingAttacks, hc, hb, hap, hr, hd])
              · exact Or.inr (Or.inr ⟨atk, rest, rfl,
                  by simp [processPendingAttacks, hc, hb, hap, hr, hd]⟩)
      · exact Or.inl (by simp [processPendingAttacks, hc])
  · intro envs
    induction envs with
    | nil => rfl
    | cons e es ih => simpa [runPendingTicks, hempty] using ih

theorem pendingAttacks_fifo_invariant_witness :
    (processPendingAttacks ⟨true, false, 5, fun _ => none⟩
      [⟨7, .punch, .uncalled⟩, ⟨7, .punch, .uncalled⟩]).1 = [] := by
  exact (pendingAttacks_fifo_invariant ⟨true, false, 5, fun _ => none⟩
      [⟨7, .punch, .uncalled⟩, ⟨7, .punch, .uncalled⟩]).2.2.2.2.1
    ⟨7, .punch, .uncalled⟩ [⟨7, .punch, .uncalled⟩] rfl rfl rfl (by decide)
    (Or.inl rfl)

/-! ## Movement waypoint queue (agent_commands.cc:680-852). -/

/-- `kMaxSegment` (agent_commands.cc:790): the per-segment path cap. -/
def kMaxSegment : Nat := 16

/-- The movement queue globals (agent_commands.cc:681-686): the waypoint
array together with its fill count (`gMoveWaypointCount`, here
`wps.length`), the service cursor `gMoveWaypointIndex`, the run flag and the
elevation / map index recorded at queue-creation time. -/
structure MoveQueue where
  wps : List Int
  index : Nat
  running : Bool
  elev : Int
  mapIdx : Int
deriving DecidableEq, Repr

/-- `gMoveWaypointCount = 0`: the queue is invalidated; the stale array
contents and cursor are never read once the count is zero, so clearing
drops the waypoint list. -/
def MoveQueue.clear (s : MoveQueue) : MoveQueue :=
  { s with wps := [] }

/-- Engine state consulted by `agentProcessQueuedMovement`:
`gDude->elevation`, `mapGetCurrentMap()`, `isInCombat()`,
`animationIsBusy(gDude)`, and the success of `reg_anim_begin` /
`animationRegister{Move,Run}ToTile` (a zero return is success). -/
structure MoveEnv where
  dudeElev : Int
  curMap : Int
  inCombat : Bool
  animBusy : Bool
  regAnimBeginOk : Bool
  registerOk : Bool

/-- `agentProcessQueuedMovement` (agent_commands.cc:696-745).  Returns the
queue after the service tick and the tile of the segment issued this tick,
if any.  Mirrors the source: inactive queue — nothing; map or elevation
differs from the recorded values — clear and abort; combat started — clear
and abort; animation busy — wait; otherwise the waypoint under the cursor
is issued (cursor advanced first, as in the source), a failed animation
registration aborts the queue, and reaching the end marks the queue done. -/
def agentProcessQueuedMovement (env : MoveEnv) (s : MoveQueue) :
    MoveQueue × Option Int :=
  if s.wps.length = 0 ∨ s.wps.length ≤ s.index then (s, none)
  else if env.dudeElev ≠ s.elev ∨ env.curMap ≠ s.mapIdx then (s.clear, none)
  else if env.inCombat then (s.clear, none)
  else if env.animBusy then (s, none)
  else
    let targetTile := s.wps.getD s.index 0
    let s1 : MoveQueue := { s with index := s.index + 1 }
    if env.regAnimBeginOk = false then (s1.clear, none)
    else if env.registerOk = false then (s1.clear, none)
    else if s1.wps.length ≤ s1.index then (s1.clear, some targetTile)
    else (s1, some targetTile)

/-- **C3.** For every active queued waypoint sequence, if on a service tick
the actor's elevation or the current map index differs from the values
recorded at queue-creation time, or combat has started,
`agentProcessQueuedMovement` clears the whole queue (waypoint count zero)
and issues no further segment. -/
theorem movementQueue_invalidation (env : MoveEnv) (s : MoveQueue)
    (hne : s.wps.length ≠ 0) (hidx : s.index < s.wps.length)
    (htrig : env.dudeElev ≠ s.elev ∨ env.curMap ≠ s.mapIdx ∨ env.inCombat = true) :
    (agentProcessQueuedMovement env s).1.wps = []
    ∧ (agentProcessQueuedMovement env s).2 = none := by
  have hnil : ¬ s.wps = [] := by
    intro h
    exact hne (by simp [h])
  have hii : ¬ s.wps.length ≤ s.index := by omega
  have hact : ¬(s.wps.length = 0 ∨ s.wps.length ≤ s.index) := by omega
  by_cases hmm : env.dudeElev ≠ s.elev ∨ env.curMap ≠ s.mapIdx
  · simp [agentProcessQueuedMovement, hact, hnil, hii, hmm, MoveQueue.clear]
  · have hcomb : env.inCombat = true := by tauto
    simp [agentProcessQueuedMovement, hact, hnil, hii, hmm, hcomb, MoveQueue.clear]

theorem movementQueue_invalidation_witness :
    (agentProcessQueuedMovement ⟨1, 3, false, false, true, true⟩
      ⟨[10, 20], 0, false, 0, 3⟩).1.wps = []
    ∧ (agentProcessQueuedMovement ⟨1, 3, false, false, true, true⟩
      ⟨[10, 20], 0, false, 0, 3⟩).2 = none := by
  exact movementQueue_invalidation ⟨1, 3, false, false, true, true⟩
    ⟨[10, 20], 0, false, 0, 3⟩ (by decide) (by decide) (Or.inl (by decide))

/-! ## Path chunking in handleMoveTo (agent_commands.cc:747-852). -/

/-- The waypoint-building loop of `handleMoveTo` (agent_commands.cc:793-800):
walk the path step by step through the rotations buffer (`rots`), using
`tileGetTileInDirection` (`stepT`) to advance the current tile, and append a
waypoint every `kMaxSegment` steps and at the final step, stopping once 39
waypoints have been collected (the loop guard `waypointCount < 39`).  `fuel`
counts the remaining loop iterations, i.e. `pathLen - i`. -/
def buildWaypointsGo (stepT : Int → Nat → Int) (rots : Nat → Nat) (pathLen : Nat) :
    Nat → Nat → Int → List Int → List Int
  | 0, _, _, acc => acc
  | fuel + 1, i, cur, acc =>
    if acc.length < 39 then
      let cur2 := stepT cur (rots i)
      let acc2 := if (i + 1) % kMaxSegment = 0 ∨ i = pathLen - 1 then acc ++ [cur2] else acc
      buildWaypointsGo stepT rots pathLen fuel (i + 1) cur2 acc2
    else acc

/-- The full waypoint list built for a path of `pathLen` steps starting at
the player's tile (agent_commands.cc:792-801). -/
def buildWaypoints (stepT : Int → Nat → Int) (rots : Nat → Nat)
    (startTile : Int) (pathLen : Nat) : List Int :=
  buildWaypointsGo stepT rots pathLen pathLen 0 startTile []

/-- Whether the loop appends a waypoint at step index `j`
(agent_commands.cc:797). -/
def segBoundary (pathLen j : Nat) : Bool :=
  decide ((j + 1) % kMaxSegment = 0 ∨ j = pathLen - 1)

theorem buildWaypointsGo_length (stepT : Int → Nat → Int) (rots : Nat → Nat)
    (pathLen : Nat) :
    ∀ fuel i cur acc, acc.length ≤ 39 →
      (buildWaypointsGo stepT rots pathLen fuel i cur acc).length
        = min (acc.length + ((List.range' i fuel).filter (segBoundary pathLen)).length) 39 := by
  intro fuel
  induction fuel with
  | zero =>
    intro i cur acc hle
    simp [buildWaypointsGo, Nat.min_eq_left hle]
  | succ fuel ih =>
    intro i cur acc hle
    by_cases hlt : acc.length < 39
    · by_cases hP : (i + 1) % kMaxSegment = 0 ∨ i = pathLen - 1
      · have hrec := ih (i + 1) (stepT cur (rots i)) (acc ++ [stepT cur (rots i)])
          (by simp; omega)
        have hLHS : buildWaypointsGo stepT rots pathLen (fuel + 1) i cur acc
            = buildWaypointsGo stepT rots pathLen fuel (i + 1) (stepT cur (rots i))
              (acc ++ [stepT cur (rots i)]) := by
          simp only [buildWaypointsGo, if_pos hlt, if_pos hP]
        have hcnt : ((List.range' i (fuel + 1)).filter (segBoundary pathLen)).length
            = ((List.range' (i + 1) fuel).filter (segBoundary pathLen)).length + 1 := by
          rw [List.range'_succ, List.filter_cons_of_pos (by simpa [segBoundary] using hP)]
          simp
        have hlen : (acc ++ [stepT cur (rots i)]).length = acc.length + 1 := by simp
        rw [hLHS, hrec, hlen, hcnt]
        omega
      · have hrec := ih (i + 1) (stepT cur (rots i)) acc hle
        have hLHS : buildWaypointsGo stepT rots pathLen (fuel + 1) i cur acc
            = buildWaypointsGo stepT rots pathLen fuel (i + 1) (stepT cur (rots i)) acc := by
          simp only [buildWaypointsGo, if_pos hlt, if_neg hP]
        rw [hLHS, hrec, List.range'_succ, List.filter_cons_of_neg (by
          simpa [segBoundary] using hP)]
    · have h39 : acc.length = 39 := by omega
      have hLHS : buildWaypointsGo stepT rots pathLen (fuel + 1) i cur acc = acc := by
        simp only [buildWaypointsGo, if_neg hlt]
      rw [hLHS, h39]
      omega

theorem range_filter_mod16_length (m : Nat) :
    ((List.range m).filter (fun j => decide ((j + 1) % kMaxSegment = 0))).length
      = m / kMaxSegment := by
  induction m with
  | zero => simp
  | succ m ih =>
    rw [List.range_succ, List.filter_append]
    by_cases h : (m + 1) % kMaxSegment = 0
    · have hdvd : kMaxSegment ∣ m + 1 := Nat.dvd_of_mod_eq_zero h
      rw [Nat.succ_div]
      simp [h, hdvd, ih]
    · have hdvd : ¬ kMaxSegment ∣ m + 1 := by
        intro hd
        obtain ⟨c, hc⟩ := hd
        exact h (by simp [kMaxSegment] at hc ⊢; omega)
      rw [Nat.succ_div]
      simp [h, hdvd, ih]

theorem range_filter_segBoundary_length (n : Nat) (hn : 1 ≤ n) :
    ((List.range n).filter (segBoundary n)).length = (n + 15) / 16 := by
  obtain ⟨m, rfl⟩ : ∃ m, n = m + 1 := ⟨n - 1, by omega⟩
  rw [List.range_succ, List.filter_append]
  have hcongr : (List.range m).filter (segBoundary (m + 1))
      = (List.range m).filter (fun j => decide ((j + 1) % kMaxSegment = 0)) := by
    apply List.filter_congr
    intro j hj
    have hjm : j < m := List.mem_range.mp hj
    simp [segBoundary, Nat.ne_of_lt hjm]
  have hlast : segBoundary (m + 1) m = true := by simp [segBoundary]
  have h1 : (List.filter (segBoundary (m + 1)) [m]).length = 1 := by
    simp [hlast]
  rw [hcongr, List.length_append, range_filter_mod16_length, h1]
  have h2 : m + 1 + 15 = m + 16 := by omega
  rw [h2, Nat.add_div_right m (by norm_num : 0 < 16)]
  simp [kMaxSegment]

theorem buildWaypoints_length (stepT : Int → Nat → Int) (rots : Nat → Nat)
    (startTile : Int) (pathLen : Nat) (h : 1 ≤ pathLen) :
    (buildWaypoints stepT rots startTile pathLen).length
      = min ((pathLen + 15) / 16) 39 := by
  unfold buildWaypoints
  rw [buildWaypointsGo_length stepT rots pathLen pathLen 0 startTile [] (by simp)]
  rw [← List.range_eq_range', range_filter_segBoundary_length pathLen h]
  simp

/-- Engine state consulted by `handleMoveTo` (agent_commands.cc:747-852):
combat and animation flags, the player's tile / elevation, the current map,
the `_make_path` result length, the rotations buffer it filled, the tile
stepper `tileGetTileInDirection`, and the success of the animation
registration calls. -/
structure MoveCmdEnv where
  inCombat : Bool
  animBusy : Bool
  dudeTile : Int
  dudeElev : Int
  curMap : Int
  pathLen : Nat
  rots : Nat → Nat
  stepT : Int → Nat → Int
  regAnimBeginOk : Bool
  registerOk : Bool

/-- `handleMoveTo` (agent_commands.cc:747-852), serving both `move_to` and
`run_to`.  Returns the command status, the movement queue after the handler
(including the first-segment service call at agent_commands.cc:808), and
the tile issued to the animation system this tick, if any.  Mirrors the
source: missing `tile` — BadArgs; in combat — Blocked; any existing queue
is cancelled; animation busy — Blocked; no path — Failed; a path longer
than `kMaxSegment` is chunked into waypoints and the first segment is
started immediately via `agentProcessQueuedMovement`; a short path is
issued as one atomic move. -/
def handleMoveTo (env : MoveCmdEnv) (run : Bool) (tileArg : Option Int) (s : MoveQueue) :
    AgentCommandStatus × MoveQueue × Option Int :=
  match tileArg with
  | none => (.BadArgs, s, none)
  | some tile =>
    if env.inCombat then (.Blocked, s, none)
    else
      let s0 := s.clear
      if env.animBusy then (.Blocked, s0, none)
      else if env.pathLen = 0 then (.Failed, s0, none)
      else if kMaxSegment < env.pathLen then
        let wps := buildWaypoints env.stepT env.rots env.dudeTile env.pathLen
        let s1 : MoveQueue := ⟨wps, 0, run, env.dudeElev, env.curMap⟩
        let menv : MoveEnv := ⟨env.dudeElev, env.curMap, env.inCombat, env.animBusy,
          env.regAnimBeginOk, env.registerOk⟩
        let r := agentProcessQueuedMovement menv s1
        (.Ok, r.1, r.2)
      else
        if env.regAnimBeginOk = false then (.Failed, s0, none)
        else if env.registerOk = false then (.Failed, s0, none)
        else (.Ok, s0, some tile)

theorem handleMoveTo_longPath (env : MoveCmdEnv) (run : Bool) (tile : Int)
    (s : MoveQueue) (h16 : kMaxSegment < env.pathLen)
    (hc : env.inCombat = false) (hb : env.animBusy = false)
    (hr : env.regAnimBeginOk = true) (hg : env.registerOk = true) :
    handleMoveTo env run (some tile) s
      = (.Ok,
         ⟨buildWaypoints env.stepT env.rots env.dudeTile env.pathLen, 1, run,
           env.dudeElev, env.curMap⟩,
         some ((buildWaypoints env.stepT env.rots env.dudeTile env.pathLen).getD 0 0)) := by
  have hlen : (buildWaypoints env.stepT env.rots env.dudeTile env.pathLen).length
      = min ((env.pathLen + 15) / 16) 39 :=
    buildWaypoints_length env.stepT env.rots env.dudeTile env.pathLen
      (by simp [kMaxSegment] at h16; omega)
  have hlen2 : 2 ≤ (buildWaypoints env.stepT env.rots env.dudeTile env.pathLen).length := by
    rw [hlen]
    simp [kMaxSegment] at h16
    have : 2 ≤ (env.pathLen + 15) / 16 := by
      have : 32 ≤ env.pathLen + 15 := by omega
      omega
    omega
  have hne0 : env.pathLen ≠ 0 := by
    simp [kMaxSegment] at h16
    omega
  have hproc : agentProcessQueuedMovement
      ⟨env.dudeElev, env.curMap, false, false, env.regAnimBeginOk, env.registerOk⟩
      ⟨buildWaypoints env.stepT env.rots env.dudeTile env.pathLen, 0, run,
        env.dudeElev, env.curMap⟩
      = (⟨buildWaypoints env.stepT env.rots env.dudeTile env.pathLen, 1, run,
          env.dudeElev, env.curMap⟩,
         some ((buildWaypoints env.stepT env.rots env.dudeTile env.pathLen).getD 0 0)) := by
    have hnil : ¬ buildWaypoints env.stepT env.rots env.dudeTile env.pathLen = [] := by
      intro h
      rw [h] at hlen2
      simp at hlen2
    have hz : ¬ (buildWaypoints env.stepT env.rots env.dudeTile env.pathLen).length = 0 := by
      omega
    have hii : ¬ (buildWaypoints env.stepT env.rots env.dudeTile env.pathLen).length ≤ 0 := by
      omega
    have hdone : ¬ (buildWaypoints env.stepT env.rots env.dudeTile env.pathLen).length ≤ 0 + 1 := by
      omega
    simp [agentProcessQueuedMovement, hnil, hz, hii, hdone, hr, hg]
  simp only [handleMoveTo, hc, hb, Bool.false_eq_true, if_false, if_neg hne0, if_pos h16,
    hproc]

/-- **C4** (amended).  For every `move_to` or `run_to` command whose computed
path length exceeds the segment cap (16), issued outside combat while the
actor is idle and with the animation registration succeeding, the handler
returns `Ok`, creates a movement waypoint queue of length
`min (ceil (pathLen / 16)) 39` — the builder stops at 39 waypoints, so the
queue length is the ceiling only up to a 624-step path — and issues the
queue's first segment in the same tick as the command (the service cursor
already stands at 1). -/
theorem moveTo_longPath_chunks_and_starts (env : MoveCmdEnv) (run : Bool)
    (tile : Int) (s : MoveQueue) (h16 : kMaxSegment < env.pathLen)
    (hc : env.inCombat = false) (hb : env.animBusy = false)
    (hr : env.regAnimBeginOk = true) (hg : env.registerOk = true) :
    (handleMoveTo env run (some tile) s).1 = .Ok
    ∧ (handleMoveTo env run (some tile) s).2.1.wps.length
        = min ((env.pathLen + 15) / 16) 39
    ∧ (handleMoveTo env run (some tile) s).2.2
        = some ((handleMoveTo env run (some tile) s).2.1.wps.getD 0 0)
    ∧ (handleMoveTo env run (some tile) s).2.1.index = 1 := by
  rw [handleMoveTo_longPath env run tile s h16 hc hb hr hg]
  refine ⟨rfl, ?_, rfl, rfl⟩
  exact buildWaypoints_length env.stepT env.rots env.dudeTile env.pathLen
    (by simp [kMaxSegment] at h16; omega)

/-- A concrete long-path environment: a 20-step path, idle actor, no
combat, collaborators succeeding. -/
def moveEnv20 : MoveCmdEnv :=
  ⟨false, false, 100, 0, 7, 20, fun _ => 0, fun t _ => t + 1, true, true⟩

theorem moveTo_longPath_chunks_and_starts_witness :
    (handleMoveTo moveEnv20 false (some 500) ⟨[], 0, false, 0, 7⟩).1 = .Ok
    ∧ (handleMoveTo moveEnv20 false (some 500) ⟨[], 0, false, 0, 7⟩).2.1.wps.length
        = min ((20 + 15) / 16) 39
    ∧ (handleMoveTo moveEnv20 false (some 500) ⟨[], 0, false, 0, 7⟩).2.2
        = some ((handleMoveTo moveEnv20 false (some 500) ⟨[], 0, false, 0, 7⟩).2.1.wps.getD 0 0)
    ∧ (handleMoveTo moveEnv20 false (some 500) ⟨[], 0, false, 0, 7⟩).2.1.index = 1 :=
  moveTo_longPath_chunks_and_starts moveEnv20 false 500 ⟨[], 0, false, 0, 7⟩
    (by decide) rfl rfl rfl rfl

/-- A concrete 625-step path: `ceil (625 / 16) = 40`, but the waypoint
builder caps the queue at 39 entries. -/
def moveEnv625 : MoveCmdEnv :=
  ⟨false, false, 100, 0, 7, 625, fun _ => 0, fun t _ => t + 1, true, true⟩

/-- **C4 counterexample.**  For the `move_to` command over a computed path of
625 steps (cap exceeded, all preconditions met), the handler returns `Ok`
but the created waypoint queue has 39 entries, not
`ceil (pathLen / segmentCap) = 40` as the claim states. -/
theorem moveTo_ceil_counterexample :
    (handleMoveTo moveEnv625 false (some 500) ⟨[], 0, false, 0, 7⟩).1 = .Ok
    ∧ (handleMoveTo moveEnv625 false (some 500) ⟨[], 0, false, 0, 7⟩).2.1.wps.length = 39
    ∧ (625 + 15) / 16 = 40 := by
  rw [handleMoveTo_longPath moveEnv625 false 500 ⟨[], 0, false, 0, 7⟩
    (by decide) rfl rfl rfl rfl]
  refine ⟨rfl, ?_, by norm_num⟩
  show (buildWaypoints moveEnv625.stepT moveEnv625.rots moveEnv625.dudeTile
    moveEnv625.pathLen).length = 39
  rw [show moveEnv625.pathLen = 625 from rfl,
    buildWaypoints_length _ _ _ 625 (by norm_num)]
  decide

/-! ## Attack command (agent_commands.cc:1526-1670). -/

/-- Which hand is active (`interfaceGetCurrentHand`, HAND_LEFT / HAND_RIGHT). -/
inductive Hand where
  | left
  | right
deriving DecidableEq, Repr

/-- The result codes of `_combat_check_bad_shot` used by `handleAttack`
(agent_commands.cc:1617-1628), named after the engine's COMBAT_BAD_SHOT
constants. -/
inductive BadShot where
  | ok
  | noAmmo
  | outOfRange
  | notEnoughAp
  | alreadyDead
  | aimBlocked
  | armCrippled
  | bothArmsCrippled
deriving DecidableEq, Repr

/-- `hitModeFromString` (agent_commands.cc:1526-1537). -/
def hitModeFromString (mode : String) (hasWeapon : Bool) : HitMode :=
  if mode = "primary" then (if hasWeapon then .rightWeaponPrimary else .punch)
  else if mode = "secondary" then (if hasWeapon then .rightWeaponSecondary else .kick)
  else if mode = "punch" then .punch
  else if mode = "kick" then .kick
  else (if hasWeapon then .rightWeaponPrimary else .punch)

/-- `hitLocationFromString` (agent_commands.cc:1539-1558). -/
def hitLocationFromString (loc : String) : HitLocation :=
  if loc = "head" then .head
  else if loc = "torso" then .torso
  else if loc = "eyes" then .eyes
  else if loc = "groin" then .groin
  else if loc = "left_arm" then .leftArm
  else if loc = "right_arm" then .rightArm
  else if loc = "left_leg" then .leftLeg
  else if loc = "right_leg" then .rightLeg
  else .uncalled

/-- The arguments of an `attack` command as read by `handleAttack`:
`target_id`, optional `hit_mode` / `hit_location` strings, optional
integer `count`. -/
structure AttackArgs where
  targetId : Option Nat
  hitMode : Option String
  hitLocation : Option String
  count : Option Int

/-- Engine state consulted by `handleAttack`: combat and animation flags,
the entity resolver, the interface hit mode (`interfaceGetCurrentHitMode`,
`some` when it returns 0) with the active hand and whether it holds a
weapon, the pre-validation `_combat_check_bad_shot` keyed by target and the
computed mode/aiming, and the `_combat_attack` return code. -/
structure AttackEnv where
  inCombat : Bool
  animBusy : Bool
  resolve : Nat → Option Critter
  currentHitMode : Option (HitMode × Bool)
  currentHand : Hand
  handWeapon : Bool
  checkBadShot : Nat → HitMode → Bool → BadShot
  attackRc : Int

/-- `handleAttack` (agent_commands.cc:1560-1670).  Returns the command
status, the pending attack queue after the handler, and the attack executed
immediately this tick, if any.  Mirrors the source: missing `target_id` —
BadArgs; not in combat — Blocked (combat entry is requested via an input
event, outside this model); unresolvable target — Failed; then the hit mode
is the interface's current mode (with a hand-based fallback), overridable
by the `hit_mode` argument; `count` is clamped to 1..10; pre-validation
failure — Failed with nothing queued; if the actor is mid-animation all
`count` attacks are queued and the result is Blocked; otherwise the first
attack executes now and the remaining `count - 1` are queued. -/
def handleAttack (env : AttackEnv) (args : AttackArgs) (q : List PendingAttack) :
    AgentCommandStatus × List PendingAttack × Option PendingAttack :=
  match args.targetId with
  | none => (.BadArgs, q, none)
  | some tid =>
    if env.inCombat = false then (.Blocked, q, none)
    else
      match env.resolve tid with
      | none => (.Failed, q, none)
      | some _ =>
        let hm0 : HitMode :=
          match env.currentHitMode with
          | some p => p.1
          | none =>
            if env.handWeapon then
              match env.currentHand with
              | .right => .rightWeaponPrimary
              | .left => .leftWeaponPrimary
            else .punch
        let hm : HitMode :=
          match args.hitMode with
          | some s1 => hitModeFromString s1 env.handWeapon
          | none => hm0
        let hl : HitLocation :=
          match args.hitLocation with
          | some s1 => hitLocationFromString s1
          | none => .uncalled
        let count : Int :=
          match args.count with
          | some c => if c < 1 then 1 else if c > 10 then 10 else c
          | none => 1
        let aiming : Bool := decide (hl ≠ .uncalled)
        if env.checkBadShot tid hm aiming ≠ .ok then (.Failed, q, none)
        else if env.animBusy then
          (.Blocked, q ++ List.replicate count.toNat ⟨tid, hm, hl⟩, none)
        else
          (if env.attackRc = 0 then .Ok else .Failed,
           q ++ List.replicate (count.toNat - 1) ⟨tid, hm, hl⟩,
           some ⟨tid, hm, hl⟩)

/-- **C6.** If an `attack` command with `count = 5` arrives while the actor
is mid-animation and the shot pre-validation passes, exactly 5 deferred
attack entries (all for the commanded target) are appended to the pending
attack queue, none is executed on that tick, and the result is Blocked
(which satisfies the claim's Blocked-or-Ok busy rule); an attack that fails
pre-validation is rejected synchronously with Failed and adds nothing to
the queue. -/
theorem attack_busy_queues_all_and_prevalidates (env : AttackEnv)
    (args : AttackArgs) (q : List PendingAttack) (tid : Nat)
    (htid : args.targetId = some tid) (hcomb : env.inCombat = true)
    (hres : (env.resolve tid).isSome = true) (h5 : args.count = some 5) :
    ((∀ hm aim, env.checkBadShot tid hm aim = .ok) → env.animBusy = true →
      ∃ a, a.targetId = tid
        ∧ handleAttack env args q = (.Blocked, q ++ List.replicate 5 a, none))
    ∧ ((∀ hm aim, env.checkBadShot tid hm aim ≠ .ok) →
      handleAttack env args q = (.Failed, q, none)) := by
  obtain ⟨c, hc⟩ := Option.isSome_iff_exists.mp hres
  constructor
  · intro hok hbusy
    refine ⟨⟨tid, ?_, ?_⟩, rfl, ?_⟩
    · exact match args.hitMode with
        | some s1 => hitModeFromString s1 env.handWeapon
        | none =>
          match env.currentHitMode with
          | some p => p.1
          | none =>
            if env.handWeapon then
              match env.currentHand with
              | .right => .rightWeaponPrimary
              | .left => .leftWeaponPrimary
            else .punch
    · exact match args.hitLocation with
        | some s1 => hitLocationFromString s1
        | none => .uncalled
    · simp only [handleAttack, htid, hcomb, hc, h5, hok, hbusy, Bool.true_eq_false,
        if_false, ne_eq, not_true_eq_false, if_true]
      norm_num
      decide
  · intro hfail
    simp only [handleAttack, htid, hcomb, hc, h5, Bool.true_eq_false, if_false, ne_eq]
    rw [if_pos (hfail _ _)]

/-- A concrete busy-attack environment: in combat, mid-animation, the target
resolves alive, pre-validation passes, queue initially empty. -/
def attackEnvBusy : AttackEnv :=
  ⟨true, true, fun _ => some ⟨false⟩, some (.punch, false), .right, false,
    fun _ _ _ => .ok, 0⟩

theorem attack_busy_queues_all_and_prevalidates_witness :
    ∃ a, a.targetId = 7
      ∧ handleAttack attackEnvBusy ⟨some 7, none, none, some 5⟩ []
          = (.Blocked, [] ++ List.replicate 5 a, none) :=
  (attack_busy_queues_all_and_prevalidates attackEnvBusy
      ⟨some 7, none, none, some 5⟩ [] 7 rfl rfl rfl rfl).1
    (fun _ _ => rfl) rfl

/-! ## Drop / unequip / reload handlers (agent_commands.cc:1234-1477). -/

/-- The drop loop of `handleDropItem` (agent_commands.cc:1440-1467), one
iteration per requested unit: re-find an item of the pid in the inventory
(modelled as a multiset of carried pids), `itemRemove` it, `_obj_connect` it
to the ground; a failing remove stops the loop, a failing connect returns
the item to the inventory and stops.  Returns the inventory after the loop
and the number of units dropped. -/
def dropLoop (removeOk connectOk : Bool) (pid : Int) :
    Nat → List Int → Nat → List Int × Nat
  | 0, inv, dropped => (inv, dropped)
  | n + 1, inv, dropped =>
    if pid ∈ inv then
      if removeOk = false then (inv, dropped)
      else if connectOk = false then (inv, dropped)
      else dropLoop removeOk connectOk pid n (inv.erase pid) (dropped + 1)
    else (inv, dropped)

/-- `handleDropItem` (agent_commands.cc:1417-1477).  `removeOk` / `connectOk`
stand for the `itemRemove` / `_obj_connect` return codes.  Missing or bad
`item_pid` — BadArgs; `quantity < 1` — BadArgs; pid absent from the
inventory — Failed (agent_commands.cc:1434-1437); otherwise the drop loop
runs and the status is Ok iff at least one unit was dropped (the in-loop
early Failed returns coincide with the final `dropped > 0` test, since they
fire only when `dropped == 0`). -/
def handleDropItem (removeOk connectOk : Bool) (inv : List Int)
    (itemPid : Option Int) (quantity : Option Int) :
    AgentCommandStatus × List Int :=
  match itemPid with
  | none => (.BadArgs, inv)
  | some pid =>
    let qty : Int := quantity.getD 1
    if qty < 1 then (.BadArgs, inv)
    else if pid ∈ inv then
      let r := dropLoop removeOk connectOk pid qty.toNat inv 0
      (if 0 < r.2 then .Ok else .Failed, r.1)
    else (.Failed, inv)

/-- `handleUnequipItem` (agent_commands.cc:1234-1247).  The hand defaults to
the right hand, `"left"` selects the left; `_inven_unwield` is invoked
unconditionally (its effect modelled as emptying the hand) and the handler
always returns Ok — there is no emptiness check and no NoOp path. -/
def handleUnequipItem (handArg : Option String) (hands : Hand → Option Int) :
    AgentCommandStatus × (Hand → Option Int) :=
  let hand : Hand :=
    match handArg with
    | some s => if s = "left" then .left else .right
    | none => .right
  (.Ok, fun h => if h = hand then none else hands h)

/-- What `handleReloadWeapon` observes about the held item:
`itemGetType == ITEM_TYPE_WEAPON`, `ammoGetCapacity`, `ammoGetQuantity`. -/
structure Weapon where
  isWeapon : Bool
  capacity : Int
  quantity : Int
deriving DecidableEq, Repr

/-- What `handleReloadWeapon` observes about an inventory item: its pid,
whether `itemGetType == ITEM_TYPE_AMMO`, and whether
`weaponCanBeReloadedWith` accepts it for the held weapon. -/
structure AmmoItem where
  pid : Int
  isAmmo : Bool
  compatible : Bool
deriving DecidableEq, Repr

/-- Engine state consulted by `handleReloadWeapon`:
`interfaceGetCurrentHand`, the held item per hand, the inventory in order,
the `weaponReload` return code (0 means the ammo stack was fully consumed
and is destroyed) and the resulting ammo quantity. -/
structure ReloadEnv where
  currentHand : Hand
  weaponIn : Hand → Option Weapon
  inv : List AmmoItem
  weaponReloadRc : Int
  reloadedQuantity : Int

/-- The hand `handleReloadWeapon` reloads (agent_commands.cc:1334-1342):
the current interface hand unless overridden by a `"left"` or `"right"`
`hand` argument. -/
def reloadHand (env : ReloadEnv) (handArg : Option String) : Hand :=
  match handArg with
  | some s => if s = "left" then .left else if s = "right" then .right else env.currentHand
  | none => env.currentHand

/-- `handleReloadWeapon` (agent_commands.cc:1332-1413).  Mirrors the source:
no weapon in the hand — Failed; held item not a weapon — BadArgs; weapon
without an ammo capacity — BadArgs; already full — NoOp (nothing touched);
then the ammo stack is the inventory item with the requested `ammo_pid`
(Failed when absent, BadArgs when incompatible) or the first compatible
ammo item (Failed when none); `weaponReload` updates the weapon and a zero
return destroys the consumed ammo stack. -/
def handleReloadWeapon (env : ReloadEnv) (handArg : Option String)
    (ammoPidArg : Option Int) :
    AgentCommandStatus × (Hand → Option Weapon) × List AmmoItem :=
  let hand := reloadHand env handArg
  match env.weaponIn hand with
  | none => (.Failed, env.weaponIn, env.inv)
  | some w =>
    if w.isWeapon = false then (.BadArgs, env.weaponIn, env.inv)
    else if w.capacity ≤ 0 then (.BadArgs, env.weaponIn, env.inv)
    else if w.capacity ≤ w.quantity then (.NoOp, env.weaponIn, env.inv)
    else
      let afterReload : AmmoItem → (Hand → Option Weapon) × List AmmoItem := fun a =>
        (fun h => if h = hand then some { w with quantity := env.reloadedQuantity } else env.weaponIn h,
         if env.weaponReloadRc = 0 then env.inv.erase a else env.inv)
      match ammoPidArg with
      | some apid =>
        match env.inv.find? (fun a => a.pid = apid) with
        | none => (.Failed, env.weaponIn, env.inv)
        | some a =>
          if a.compatible = false then (.BadArgs, env.weaponIn, env.inv)
          else (.Ok, afterReload a)
      | none =>
        match env.inv.find? (fun a => a.isAmmo && a.compatible) with
        | none => (.Failed, env.weaponIn, env.inv)
        | some a => (.Ok, afterReload a)

/-- **C8** (amended).  Among the cited nothing-to-do cases only
`reload_weapon` follows the NoOp rule: reloading an already-full weapon
yields `NoOp` and mutates neither the hands nor the inventory; but
`drop_item` with an `item_pid` absent from the inventory yields `Failed`
(not `NoOp`), with the inventory unchanged, and `unequip_item` always
yields `Ok` (not `NoOp`), including with an empty hand, in which case the
hand contents are unchanged. -/
theorem nothingToDo_statuses (env : ReloadEnv) (handArg : Option String)
    (ammoPidArg : Option Int) (w : Weapon)
    (hw : env.weaponIn (reloadHand env handArg) = some w)
    (hwep : w.isWeapon = true) (hcap : 0 < w.capacity)
    (hfull : w.capacity ≤ w.quantity)
    (removeOk connectOk : Bool) (inv : List Int) (pid : Int)
    (habs : pid ∉ inv)
    (handArg2 : Option String) (hands : Hand → Option Int) :
    handleReloadWeapon env handArg ammoPidArg = (.NoOp, env.weaponIn, env.inv)
    ∧ handleDropItem removeOk connectOk inv (some pid) none = (.Failed, inv)
    ∧ (handleUnequipItem handArg2 hands).1 = .Ok := by
  refine ⟨?_, ?_, rfl⟩
  · have hcap2 : ¬ w.capacity ≤ 0 := by omega
    simp only [handleReloadWeapon, hw, hwep, Bool.true_eq_false, if_false,
      if_neg hcap2, if_pos hfull]
  · simp only [handleDropItem]
    have h1 : ¬ (1 : Int) < 1 := by norm_num
    simp [habs, h1]

theorem nothingToDo_statuses_witness :
    handleReloadWeapon
        ⟨.right, fun _ => some ⟨true, 10, 10⟩, [], 0, 10⟩ none none
      = (.NoOp, (⟨.right, fun _ => some ⟨true, 10, 10⟩, [], 0, 10⟩ : ReloadEnv).weaponIn, [])
    ∧ handleDropItem true true [3, 4] (some 42) none = (.Failed, [3, 4])
    ∧ (handleUnequipItem none (fun _ => none)).1 = .Ok :=
  nothingToDo_statuses ⟨.right, fun _ => some ⟨true, 10, 10⟩, [], 0, 10⟩ none none
    ⟨true, 10, 10⟩ rfl rfl (by norm_num) (by norm_num)
    true true [3, 4] 42 (by decide) none (fun _ => none)

/-- **C8 counterexample.**  `drop_item` with `item_pid = 42` and an empty
inventory (nothing to drop) returns `Failed`, not `NoOp` as the claim
states (likewise `unequip_item` with an empty hand returns `Ok`, not
`NoOp`). -/
theorem dropItem_absent_not_noop :
    (handleDropItem true true [] (some 42) none).1 = .Failed
    ∧ (handleDropItem true true [] (some 42) none).1 ≠ .NoOp
    ∧ (handleUnequipItem none (fun _ => none)).1 = .Ok := by
  refine ⟨?_, ?_, rfl⟩ <;> decide

/-! ## Test-mode gating of cheat commands (agent_bridge.h:30-32,
agent_commands.cc:881-886, 1479-1484, 2165-2182, 2213-2218, 2884-2963). -/

/-- Engine collaborators used by the cheat-class handlers, over an abstract
world state `σ`: observation functions for the pre-checks and mutators for
the handler bodies (each mutator bundles the consecutive engine calls of
the corresponding source block). -/
structure CheatOps (σ : Type) where
  resolve : σ → Nat → Bool
  isScenery : σ → Nat → Bool
  isDoorProto : σ → Nat → Bool
  distanceTo : σ → Nat → Int
  isLocked : σ → Nat → Bool
  isOpen : σ → Nat → Bool
  openDoor : σ → Nat → σ
  dudeElev : σ → Int
  dudeTile : σ → Int
  objectSetLocation : σ → Int → Int → σ
  mapSetElevation : σ → Int → σ
  tileSetCenter : σ → Int → σ
  forceRefresh : σ → σ
  mapSetTransition : σ → Int → Int → Int → Int → σ
  markEntrance : σ → Int → Int → σ
  createItemOk : σ → Int → Bool
  itemAddOk : σ → Int → Bool
  giveOne : σ → Int → σ
  explodeAt : σ → Int → Int → σ
  tileDistance : σ → Int → Int
  nudgeApply : σ → Int → σ
  inCombat : σ → Bool
  combatOver : σ → σ

/-- Modelled from the spec: the definition (and initializer) of
`gAgentTestMode` lives outside src/; its declaration comment
(agent_bridge.h:30-31) says the flag defaults to false and is enabled via
the `set_test_mode` command. -/
def gAgentTestModeInit : Bool := false

/-- `handleSetTestModeCommand` (agent_commands.cc:3364-3372): the new value
of the test-mode flag is true exactly when the command carries a boolean
`enabled` argument that is true; the handler returns Ok. -/
def handleSetTestModeCommand (enabled : Option Bool) (_testMode : Bool) :
    Bool × AgentCommandStatus :=
  (decide (enabled = some true), .Ok)

/-- `handleTeleport` (agent_commands.cc:2213-2251): the test-mode gate comes
first, then argument validation, then the position set, the conditional
elevation switch, the viewport centering and the enumeration refresh. -/
def handleTeleport (testMode : Bool) (ops : CheatOps σ)
    (tileArg elevArg : Option Int) (w : σ) : AgentCommandStatus × σ :=
  if testMode = false then (.Blocked, w)
  else
    match tileArg with
    | none => (.BadArgs, w)
    | some tile =>
      let oldElev := ops.dudeElev w
      let elev := elevArg.getD oldElev
      let w1 := ops.objectSetLocation w tile elev
      let w2 := if elev ≠ oldElev then ops.mapSetElevation w1 elev else w1
      let w3 := ops.tileSetCenter w2 (ops.dudeTile w2)
      (.Ok, ops.forceRefresh w3)

/-- `handleMapTransition` (agent_commands.cc:2165-2209): argument validation
comes FIRST (missing map / elevation / tile is BadArgs even with test mode
off), the test-mode gate only after it; then the transition is staged, the
entrance marked and the enumeration refreshed. -/
def handleMapTransition (testMode : Bool) (ops : CheatOps σ)
    (mapArg elevArg tileArg rotArg : Option Int) (w : σ) :
    AgentCommandStatus × σ :=
  match mapArg, elevArg, tileArg with
  | some m, some e, some t =>
    if testMode = false then (.Blocked, w)
    else
      let w1 := ops.mapSetTransition w m e t (rotArg.getD 0)
      let w2 := ops.markEntrance w1 m e
      (.Ok, ops.forceRefresh w2)
  | _, _, _ => (.BadArgs, w)

/-- `handleOpenDoor` (agent_commands.cc:881-976): test-mode gate, argument
check, target resolution, scenery / door checks, adjacency, lock and
already-open checks, then the door-opening block. -/
def handleOpenDoor (testMode : Bool) (ops : CheatOps σ)
    (objectId : Option Nat) (w : σ) : AgentCommandStatus × σ :=
  if testMode = false then (.Blocked, w)
  else
    match objectId with
    | none => (.BadArgs, w)
    | some oid =>
      if ops.resolve w oid = false then (.Failed, w)
      else if ops.isScenery w oid = false then (.BadArgs, w)
      else if ops.isDoorProto w oid = false then (.BadArgs, w)
      else if 1 < ops.distanceTo w oid then (.Failed, w)
      else if ops.isLocked w oid then (.Blocked, w)
      else if ops.isOpen w oid then (.NoOp, w)
      else (.Ok, ops.forceRefresh (ops.openDoor w oid))

/-- The creation loop of `handleGiveItem` (agent_commands.cc:1497-1515):
one `objectCreateWithPid` + `itemAdd` per requested unit, a failure of
either aborting with Failed. -/
def giveLoop (ops : CheatOps σ) (pid : Int) : Nat → σ → σ × Bool
  | 0, w => (w, true)
  | n + 1, w =>
    if ops.createItemOk w pid = false then (w, false)
    else if ops.itemAddOk w pid = false then (w, false)
    else giveLoop ops pid n (ops.giveOne w pid)

/-- `handleGiveItem` (agent_commands.cc:1479-1522): test-mode gate first,
then argument validation, then the creation loop. -/
def handleGiveItem (testMode : Bool) (ops : CheatOps σ)
    (itemPid quantity : Option Int) (w : σ) : AgentCommandStatus × σ :=
  if testMode = false then (.Blocked, w)
  else
    match itemPid with
    | none => (.BadArgs, w)
    | some pid =>
      let r := giveLoop ops pid (quantity.getD 1).toNat w
      (if r.2 then .Ok else .Failed, r.1)

/-- `handleDetonateAtCommand` (agent_commands.cc:2901-2934): test-mode gate
first, then the `tile` argument check, then the explosion (pid defaults to
85). -/
def handleDetonateAtCommand (testMode : Bool) (ops : CheatOps σ)
    (tileArg pidArg : Option Int) (w : σ) : AgentCommandStatus × σ :=
  if testMode = false then (.Blocked, w)
  else
    match tileArg with
    | none => (.BadArgs, w)
    | some t => (.Ok, ops.explodeAt w t (pidArg.getD 85))

/-- `handleNudgeCommand` (agent_commands.cc:2936-2964): test-mode gate
first, then the `tile` argument check, an adjacency check (Failed beyond
distance 1), then the forced position set. -/
def handleNudgeCommand (testMode : Bool) (ops : CheatOps σ)
    (tileArg : Option Int) (w : σ) : AgentCommandStatus × σ :=
  if testMode = false then (.Blocked, w)
  else
    match tileArg with
    | none => (.BadArgs, w)
    | some t =>
      if 1 < ops.tileDistance w t then (.Failed, w)
      else (.Ok, ops.nudgeApply w t)

/-- `handleForceEndCombatCommand` (agent_commands.cc:2884-2899): test-mode
gate first, NoOp outside combat, otherwise combat is forcefully ended. -/
def handleForceEndCombatCommand (testMode : Bool) (ops : CheatOps σ) (w : σ) :
    AgentCommandStatus × σ :=
  if testMode = false then (.Blocked, w)
  else if ops.inCombat w = false then (.NoOp, w)
  else (.Ok, ops.combatOver w)

/-- **C10** (amended).  With test mode disabled, every cheat-class handler
mutates no simulation state, and all of them return `Blocked` — except
`map_transition`, which validates its arguments before the test-mode gate
and therefore returns `BadArgs` (still without mutation) when `map`,
`elevation` or `tile` is missing; test mode defaults to disabled at startup
and the `set_test_mode` handler sets it exactly to the value of a boolean
`enabled` argument. -/
theorem cheat_commands_gated (σ : Type) (ops : CheatOps σ) (w : σ)
    (tileArg elevArg mapArg rotArg pidArg qtyArg : Option Int)
    (objectId : Option Nat) (enabled : Option Bool) :
    handleTeleport false ops tileArg elevArg w = (.Blocked, w)
    ∧ handleOpenDoor false ops objectId w = (.Blocked, w)
    ∧ handleGiveItem false ops pidArg qtyArg w = (.Blocked, w)
    ∧ handleDetonateAtCommand false ops tileArg pidArg w = (.Blocked, w)
    ∧ handleNudgeCommand false ops tileArg w = (.Blocked, w)
    ∧ handleForceEndCombatCommand false ops w = (.Blocked, w)
    ∧ ((mapArg.isSome ∧ elevArg.isSome ∧ tileArg.isSome) →
        handleMapTransition false ops mapArg elevArg tileArg rotArg w = (.Blocked, w))
    ∧ (handleMapTransition false ops mapArg elevArg tileArg rotArg w).2 = w
    ∧ ((handleMapTransition false ops mapArg elevArg tileArg rotArg w).1 = .Blocked
        ∨ (handleMapTransition false ops mapArg elevArg tileArg rotArg w).1 = .BadArgs)
    ∧ gAgentTestModeInit = false
    ∧ (∀ tm, (handleSetTestModeCommand enabled tm).1 = decide (enabled = some true)
        ∧ (handleSetTestModeCommand enabled tm).2 = .Ok) := by
  refine ⟨rfl, rfl, rfl, rfl, rfl, rfl, ?_, ?_, ?_, rfl, fun tm => ⟨rfl, rfl⟩⟩
  · rintro ⟨hm, he, ht⟩
    obtain ⟨m, hm⟩ := Option.isSome_iff_exists.mp hm
    obtain ⟨e, he⟩ := Option.isSome_iff_exists.mp he
    obtain ⟨t, ht⟩ := Option.isSome_iff_exists.mp ht
    subst hm he ht
    rfl
  · rcases mapArg with _ | m <;> rcases elevArg with _ | e <;>
      rcases tileArg with _ | t <;> rfl
  · rcases mapArg with _ | m <;> rcases elevArg with _ | e <;>
      rcases tileArg with _ | t <;> simp [handleMapTransition]

/-- A trivial world for concrete cheat-gate evaluation. -/
def unitCheatOps : CheatOps Unit :=
  ⟨fun _ _ => true, fun _ _ => true, fun _ _ => true, fun _ _ => 0,
    fun _ _ => false, fun _ _ => false, fun w _ => w, fun _ => 0, fun _ => 0,
    fun w _ _ => w, fun w _ => w, fun w _ => w, fun w => w,
    fun w _ _ _ _ => w, fun w _ _ => w, fun _ _ => true, fun _ _ => true,
    fun w _ => w, fun w _ _ => w, fun _ _ => 0, fun w _ => w,
    fun _ => false, fun w => w⟩

theorem cheat_commands_gated_witness :
    handleTeleport false unitCheatOps (some 100) none () = (.Blocked, ())
    ∧ handleForceEndCombatCommand false unitCheatOps () = (.Blocked, ())
    ∧ gAgentTestModeInit = false :=
  ⟨(cheat_commands_gated Unit unitCheatOps () (some 100) none none none none none
      none none).1,
   (cheat_commands_gated Unit unitCheatOps () (some 100) none none none none none
      none none).2.2.2.2.2.1,
   (cheat_commands_gated Unit unitCheatOps () (some 100) none none none none none
      none none).2.2.2.2.2.2.2.2.2.1⟩

/-- **C10 counterexample.**  With test mode disabled, a `map_transition`
command missing its `map` / `elevation` / `tile` arguments returns
`BadArgs`, not `Blocked` as the claim requires of every cheat-class command
(the world is still unmutated). -/
theorem mapTransition_gate_counterexample :
    (handleMapTransition false unitCheatOps none none none none ()).1 = .BadArgs
    ∧ (AgentCommandStatus.BadArgs ≠ .Blocked) := by
  exact ⟨rfl, by decide⟩

/-! ## Throttled object enumeration (agent_state.cc:50-51, 727-793, 1000). -/

/-- `kObjectEnumInterval` (agent_state.cc:51). -/
def kObjectEnumInterval : Nat := 10

/-- The enumeration cache globals (agent_state.cc:729-730): the tick of the
last fresh enumeration (`gLastObjectEnumTick`, initially 0) and the cached
enumeration result (`gCachedObjects`, modelled as an opaque identifier). -/
structure ObjCache where
  lastEnumTick : Nat
  cached : Nat
deriving DecidableEq, Repr

/-- Engine state consulted by `writeMapAndObjectState` on one tick:
`gAgentTick` (monotone, so `lastEnumTick ≤ tick` in every reachable state
and the unsigned subtraction of the source equals the truncated one),
`mapGetCurrentMap() >= 0`, `isInCombat()`, `GameMode::kPlayerTurn`, and the
result a fresh enumeration would produce this tick. -/
structure StateEnv where
  tick : Nat
  mapLoaded : Bool
  inCombat : Bool
  playerTurnFlag : Bool
  enumResult : Nat
deriving DecidableEq, Repr

/-- The throttle gate of `writeMapAndObjectState` (agent_state.cc:737-793,
1000-1001): with no map loaded the section is omitted; otherwise the
objects section is recomputed when in combat on the player's turn or when
at least `kObjectEnumInterval` ticks have passed since the last
enumeration, updating `gLastObjectEnumTick` and `gCachedObjects`, and the
cached result is reused in between.  Returns the cache state, the objects
section written, and whether a fresh enumeration ran. -/
def writeMapAndObjectState (env : StateEnv) (s : ObjCache) :
    ObjCache × Option Nat × Bool :=
  if env.mapLoaded = false then (s, none, false)
  else
    let isPlayerTurn := env.inCombat && env.playerTurnFlag
    let shouldEnum := isPlayerTurn
      || decide (kObjectEnumInterval ≤ env.tick - s.lastEnumTick)
    if shouldEnum then (⟨env.tick, env.enumResult⟩, some env.enumResult, true)
    else (s, some s.cached, false)

/-- `agentForceObjectRefresh` (agent_state.cc:732-735): the invalidation
signal resets the last-enumeration tick to 0. -/
def agentForceObjectRefresh (s : ObjCache) : ObjCache :=
  { s with lastEnumTick := 0 }

/-- **C9** (amended).  The expensive object enumeration is never recomputed
more than once per 10 ticks — any fresh enumeration outside the player's
combat turn happens at least 10 ticks after the tick recorded by the
previous one, and a write that does not enumerate returns the cached result
and leaves the cache untouched — except that it is recomputed every tick
while in combat during the player's turn; `agentForceObjectRefresh` resets
the throttle counter to 0, so the next state write performs exactly one
fresh enumeration and re-arms the interval, provided at least 10 ticks have
elapsed since process start (`gAgentTick ≥ 10`; in the first 9 ticks the
reset leaves the counter at its startup value and the write still reuses
the cache). -/
theorem objectEnum_throttle (env : StateEnv) (s : ObjCache) :
    ((writeMapAndObjectState env s).2.2 = true →
      (env.inCombat && env.playerTurnFlag) = true
      ∨ s.lastEnumTick + kObjectEnumInterval ≤ env.tick)
    ∧ ((writeMapAndObjectState env s).2.2 = false → env.mapLoaded = true →
      (writeMapAndObjectState env s).2.1 = some s.cached
      ∧ (writeMapAndObjectState env s).1 = s)
    ∧ (env.mapLoaded = true → env.inCombat = true → env.playerTurnFlag = true →
      (writeMapAndObjectState env s).2.2 = true)
    ∧ ((writeMapAndObjectState env s).2.2 = true →
      (writeMapAndObjectState env s).1.lastEnumTick = env.tick
      ∧ (writeMapAndObjectState env s).2.1 = some env.enumResult)
    ∧ (env.mapLoaded = true → kObjectEnumInterval ≤ env.tick →
      (writeMapAndObjectState env (agentForceObjectRefresh s)).2.2 = true
      ∧ (writeMapAndObjectState env (agentForceObjectRefresh s)).1.lastEnumTick
          = env.tick) := by
  by_cases hm : env.mapLoaded
  · by_cases hturn : (env.inCombat && env.playerTurnFlag) = true
    · refine ⟨fun _ => Or.inl hturn, ?_, fun _ _ _ => ?_, ?_, fun _ _ => ⟨?_, ?_⟩⟩ <;>
        simp [writeMapAndObjectState, agentForceObjectRefresh, hm, hturn]
    · by_cases hgap : kObjectEnumInterval ≤ env.tick - s.lastEnumTick
      · refine ⟨fun _ => Or.inr (by
          simp only [kObjectEnumInterval] at hgap ⊢
          omega), ?_, ?_, ?_, ?_⟩
        · simp [writeMapAndObjectState, hm, hturn, hgap]
        · intro _ hic hpt
          simp [writeMapAndObjectState, hm, hic, hpt]
        · intro _
          simp [writeMapAndObjectState, hm, hturn, hgap]
        · intro _ htick
          simp [writeMapAndObjectState, agentForceObjectRefresh, hm, hturn, htick]
      · refine ⟨?_, ?_, ?_, ?_, ?_⟩
        · intro habs
          simp [writeMapAndObjectState, hm, hturn, hgap] at habs
        · intro _ _
          simp [writeMapAndObjectState, hm, hturn, hgap]
        · intro _ hic hpt
          simp [writeMapAndObjectState, hm, hic, hpt]
        · intro habs
          simp [writeMapAndObjectState, hm, hturn, hgap] at habs
        · intro _ htick
          simp [writeMapAndObjectState, agentForceObjectRefresh, hm, hturn, htick]
  · have hm2 : env.mapLoaded = false := by simpa using hm
    refine ⟨?_, ?_, ?_, ?_, ?_⟩ <;>
      simp [writeMapAndObjectState, hm2]

theorem objectEnum_throttle_witness :
    (writeMapAndObjectState ⟨25, true, false, false, 4⟩
        (agentForceObjectRefresh ⟨20, 3⟩)).2.2 = true
    ∧ (writeMapAndObjectState ⟨25, true, false, false, 4⟩
        (agentForceObjectRefresh ⟨20, 3⟩)).1.lastEnumTick = 25 :=
  (objectEnum_throttle ⟨25, true, false, false, 4⟩ ⟨20, 3⟩).2.2.2.2
    rfl (by decide)

/-- **C9 counterexample.**  Within the first 10 ticks of the process the
invalidation signal does not cause a fresh enumeration: after
`agentForceObjectRefresh`, the state write at tick 5 (map loaded, not the
player's combat turn) still reuses the cached result instead of performing
exactly one fresh enumeration as the claim states. -/
theorem forceRefresh_startup_counterexample :
    (writeMapAndObjectState ⟨5, true, false, false, 4⟩
        (agentForceObjectRefresh ⟨0, 3⟩)).2.2 = false
    ∧ (writeMapAndObjectState ⟨5, true, false, false, 4⟩
        (agentForceObjectRefresh ⟨0, 3⟩)).2.1 = some 3 := by
  constructor <;> decide

theorem dispatchOrder_phases_witness :
    dispatchOrder [⟨some "move_to", 0⟩, ⟨some "attack", 1⟩]
      = [⟨some "move_to", 0⟩, ⟨some "attack", 1⟩] :=
  (dispatchOrder_phases [⟨some "move_to", 0⟩, ⟨some "attack", 1⟩]).2 (by decide)
